import Mathlib

/-
Shallow embedding of the Falcon-AI repository (an Express backend in
src/backend/server.js and a React client in src/unnamed/part_000), together
with proofs about the embedded operations.

JavaScript strings are modelled as Lean `String` (character-level: the
concrete inputs used here are BMP text, where JS UTF-16 code-unit indexing
coincides with character indexing).  JSON values are modelled by `JVal`.
External services (bcrypt, jwt, the LLM / weather / image APIs, fetch) are
modelled as explicit oracle parameters: each route handler takes the
upstream response as an argument and additionally reports whether the
upstream call was reached (a `Bool` component of its result).
-/

/-- JSON-like values, used for upstream payloads and response bodies. -/
inductive JVal where
  | null : JVal
  | bool : Bool → JVal
  | num : Int → JVal
  | str : String → JVal
  | arr : List JVal → JVal
  | obj : List (String × JVal) → JVal

/-- JS property access `v.k` / `v?.k`: the first binding of `k` in an object,
`null` otherwise (absence collapses `undefined` and `null`). -/
def jget (v : JVal) (key : String) : JVal :=
  match v with
  | JVal.obj fields =>
      match fields.find? (fun kv => kv.1 == key) with
      | some kv => kv.2
      | none => JVal.null
  | _ => JVal.null

/-- JS index access `v[i]` / `v?.[i]` on an array value. -/
def jidx (v : JVal) (i : Nat) : JVal :=
  match v with
  | JVal.arr elems => elems.getD i JVal.null
  | _ => JVal.null

/-- JS truthiness of a JSON value. -/
def jsTruthy : JVal → Bool
  | JVal.null => false
  | JVal.bool b => b
  | JVal.num n => decide (n ≠ 0)
  | JVal.str s => decide (s ≠ "")
  | JVal.arr _ => true
  | JVal.obj _ => true

/-- JS `a || b` on JSON values. -/
def jvalOr (v fallback : JVal) : JVal :=
  if jsTruthy v then v else fallback

/-- JS `a || b` where `a` is a possibly-absent string (absent and `""` are falsy). -/
def jsOr (v : Option String) (fallback : String) : String :=
  match v with
  | some s => if s = "" then fallback else s
  | none => fallback

/-- The whitespace class of the JS `\s` regex class and `String.prototype.trim`,
restricted to the ASCII range used by this repository. -/
def isJsWs (c : Char) : Bool :=
  c = ' ' || c = '\t' || c = '\n' || c = '\r' || c = '\x0b' || c = '\x0c'

/-- Characters of a string after JS `trim()`: leading and trailing whitespace
removed. -/
def trimChars (l : List Char) : List Char :=
  ((l.dropWhile isJsWs).reverse.dropWhile isJsWs).reverse

/-- JS `s.trim()`. -/
def jsTrim (s : String) : String :=
  String.mk (trimChars s.data)

/-- Worker for `collapseWs`: `prevWs` records whether the previous character
belonged to a whitespace run already emitted as a single space. -/
def collapseAux : Bool → List Char → List Char
  | _, [] => []
  | prevWs, c :: rest =>
      if isJsWs c then
        if prevWs then collapseAux true rest
        else ' ' :: collapseAux true rest
      else c :: collapseAux false rest

/-- JS `s.replace(/\s+/g, " ")`: every maximal whitespace run becomes one space. -/
def collapseWs (s : String) : String :=
  String.mk (collapseAux false s.data)

/-- JS falsiness test for an optional request field holding a string
(`!x` is true for a missing field and for the empty string). -/
def jsFalsyStr (v : Option String) : Bool :=
  match v with
  | none => true
  | some s => s == ""

/-- The test `!x || !x.trim()` applied by the weather and image routes to
their `city` / `prompt` fields. -/
def jsBlank (v : Option String) : Bool :=
  match v with
  | none => true
  | some s => s == "" || jsTrim s == ""

/-- An HTTP JSON response: status code plus the keyed fields of the body object. -/
structure HttpResp where
  status : Nat
  body : List (String × JVal)

/- ------------------------------------------------------------------
   Weather tool route: app.post("/api/tools/weather") in server.js
   ------------------------------------------------------------------ -/

/-- The upstream OpenWeatherMap response as seen by the handler:
`ok`/`status` of the fetch response and the parsed JSON body. -/
structure UpstreamWeatherResp where
  ok : Bool
  status : Nat
  data : JVal

/-- The `result` object literal built by the weather route from the upstream
body `data` (server.js lines 229-238).  The keys are exactly the keys of
that literal, in source order: note `feels_like` (snake case) and the
trailing `raw` field carrying the whole upstream body. -/
def weatherResult (data : JVal) : List (String × JVal) :=
  [ ("city", jget data "name"),
    ("country", jget (jget data "sys") "country"),
    ("temp", jget (jget data "main") "temp"),
    ("feels_like", jget (jget data "main") "feels_like"),
    ("humidity", jget (jget data "main") "humidity"),
    ("description", jget (jidx (jget data "weather") 0) "description"),
    ("icon", jget (jidx (jget data "weather") 0) "icon"),
    ("raw", data) ]

/-- The weather route handler.  `apiKey` models `process.env.WEATHER_API_KEY`.
The second component records whether the upstream `fetch` was reached. -/
def weatherHandler (city apiKey : Option String) (upstream : UpstreamWeatherResp) :
    HttpResp × Bool :=
  if jsBlank city then
    ({ status := 400, body := [("error", JVal.str "City is required")] }, false)
  else if (apiKey.getD "") = "" then
    ({ status := 500, body := [("error", JVal.str "WEATHER_API_KEY is not set in .env")] }, false)
  else if upstream.ok = false then
    ({ status := upstream.status,
       body := [("error", jvalOr (jget upstream.data "message") (JVal.str "Weather API error"))] },
     true)
  else
    ({ status := 200, body := weatherResult upstream.data }, true)

/- ------------------------------------------------------------------
   Image generation route: app.post("/api/image/generate") in server.js.
   The route is registered WITHOUT authMiddleware (unlike /api/chat), so
   the handler never consults the Authorization header.
   ------------------------------------------------------------------ -/

/-- The upstream HuggingFace image response: `ok` of the fetch response,
the base64 rendering of the returned bytes, and the error text read when
the response is not ok. -/
structure ImageUpstream where
  ok : Bool
  base64Body : String
  errText : String

/-- The image-generation route handler.  `authHeader` is accepted (the HTTP
request carries it) but, faithfully to the source, never inspected:
no auth middleware is attached to this route.  The second component
records whether the upstream HuggingFace call was reached. -/
def imageGenerateRoute (authHeader : Option String) (prompt : Option String)
    (upstream : ImageUpstream) : HttpResp × Bool :=
  if jsBlank prompt then
    ({ status := 400, body := [("error", JVal.str "Prompt is required")] }, false)
  else if upstream.ok then
    ({ status := 200,
       body := [("imageBase64", JVal.str ("data:image/png;base64," ++ upstream.base64Body))] },
     true)
  else
    ({ status := 500, body := [("error", JVal.str "Image API failed")] }, true)

/- ------------------------------------------------------------------
   Auth: authMiddleware and app.post("/api/auth/login") in server.js
   ------------------------------------------------------------------ -/

/-- The payload decoded from a JWT by `jwt.verify`. -/
structure JwtUser where
  id : String
  email : String
deriving DecidableEq

/-- Token extraction of authMiddleware: `authHeader.startsWith("Bearer ")
? authHeader.slice(7) : null`. -/
def extractBearerToken (authHeader : Option String) : Option String :=
  let h := authHeader.getD ""
  if List.isPrefixOf "Bearer ".data h.data then some (String.mk (h.data.drop 7))
  else none

/-- authMiddleware (server.js lines 104-121).  `verify` models
`jwt.verify(token, JWT_SECRET)`: `some` of the decoded payload on success,
`none` when verification throws.  An empty extracted token is falsy in JS
and is reported as a missing token. -/
def authMiddleware (verify : String → Option JwtUser) (authHeader : Option String) :
    Except (Nat × String) JwtUser :=
  match extractBearerToken authHeader with
  | none => Except.error (401, "No token, authorization denied")
  | some t =>
      if t = "" then Except.error (401, "No token, authorization denied")
      else
        match verify t with
        | some u => Except.ok u
        | none => Except.error (401, "Token is not valid")

/-- A user document in the MongoDB `User` collection. -/
structure StoredUser where
  id : String
  name : String
  email : String
  password : String
deriving DecidableEq

/-- `User.findOne({ email })`: first stored user with the given email. -/
def findUserByEmail (store : List StoredUser) (email : String) : Option StoredUser :=
  store.find? (fun u => u.email == email)

/-- Result of the login route. -/
inductive LoginResult where
  | failure (status : Nat) (error : String)
  | success (id name email token : String)
deriving DecidableEq

/-- The login route (server.js lines 166-198).  `compare` models
`bcrypt.compare(password, user.password)`; `sign` models `jwt.sign` on
`{id, email}`. -/
def loginHandler (store : List StoredUser) (compare : String → String → Bool)
    (sign : String → String → String) (email password : String) : LoginResult :=
  match findUserByEmail store email with
  | none => LoginResult.failure 400 "Invalid email or password"
  | some user =>
      if compare password user.password then
        LoginResult.success user.id user.name user.email (sign user.id user.email)
      else
        LoginResult.failure 400 "Invalid email or password"

/- ------------------------------------------------------------------
   Chat route: app.post("/api/chat", authMiddleware, ...) in server.js
   ------------------------------------------------------------------ -/

/-- One entry of the `messages` array of a chat request. -/
structure ChatMsg where
  role : String
  content : String
deriving DecidableEq

/-- The default system prompt used when only a single `message` is supplied. -/
def defaultSystemPrompt : String :=
  "You are a friendly AI assistant helping an IT undergraduate. Explain things simply with examples."

/-- The synthesized one-system + one-user message list (server.js lines
264-271).  `message` is truthy whenever this branch is reached. -/
def defaultChatMessages (message : Option String) : List ChatMsg :=
  [ { role := "system", content := defaultSystemPrompt },
    { role := "user", content := message.getD "" } ]

/-- The request-body validation of the chat route:
`!message && (!Array.isArray(messages) || messages.length === 0)`.
A missing or non-array `messages` field is modelled as `none`. -/
def chatBodyInvalid (message : Option String) (messages : Option (List ChatMsg)) : Bool :=
  jsFalsyStr message && ((messages.getD []).length == 0)

/-- `chatMessages` as computed by the route (server.js lines 260-272). -/
def buildChatMessages (message : Option String) (messages : Option (List ChatMsg)) :
    List ChatMsg :=
  match messages with
  | some l => if 0 < l.length then l else defaultChatMessages message
  | none => defaultChatMessages message

/-- The flattened transcript sent to Gemini:
`chatMessages.map(m => ROLE: content).join("\n")` with upper-cased roles. -/
def combineForGemini (l : List ChatMsg) : String :=
  String.intercalate "\n" (l.map (fun m => m.role.toUpper ++ ": " ++ m.content))

/-- The `inputs` string sent to the HuggingFace chat model:
`chatMessages.map(m => role: content).join("\n") || message`. -/
def hfInputsOf (l : List ChatMsg) (message : Option String) : String :=
  let joined := String.intercalate "\n" (l.map (fun m => m.role ++ ": " ++ m.content))
  if joined = "" then message.getD "" else joined

/-- The outbound request the chat route makes to a provider. -/
inductive ProviderCall where
  | groqCall (model : String) (messages : List ChatMsg)
  | geminiCall (model : String) (combined : String)
  | deepseekCall (model : String) (messages : List ChatMsg)
  | hfCall (inputs : String)
deriving DecidableEq

/-- The provider dispatch of the chat route: which upstream request is made
for the (destructured) provider id and the computed `chatMessages`. -/
def providerCallOf (p : String) (chatMessages : List ChatMsg) (message : Option String) :
    ProviderCall :=
  if p = "gemini" then ProviderCall.geminiCall "gemini-2.0-flash" (combineForGemini chatMessages)
  else if p = "deepseek" then ProviderCall.deepseekCall "deepseek-chat" chatMessages
  else if p = "huggingface" then ProviderCall.hfCall (hfInputsOf chatMessages message)
  else ProviderCall.groqCall "llama-3.1-8b-instant" chatMessages

/-- Upstream oracles for one chat request, one per provider client.
`Except.error m` models a thrown error with message `m`; the payloads model
`choices[0]?.message?.content` (groq, deepseek), `result.response.text()`
(gemini), and `(data[0]?.generated_text, JSON.stringify(data))` (huggingface). -/
structure ChatUpstreams where
  groq : Except String (Option String)
  gemini : Except String String
  deepseek : Except String (Option String)
  hf : Except String (Option String × String)

/-- The successful chat response body `{reply, provider}`. -/
structure ChatSuccess where
  reply : String
  provider : String
deriving DecidableEq

/-- The HTTP outcome of the chat route. -/
inductive ChatResult where
  | unauthorized (status : Nat) (error : String)
  | badRequest (error : String)
  | ok (body : ChatSuccess)
  | serverError (error : String)
deriving DecidableEq

/-- The catch clause of the chat route:
`err?.response?.data?.error?.message || err.message || "Error contacting AI service"`,
for thrown errors modelled by their message string. -/
def chatCatchMsg (e : String) : String :=
  if e = "" then "Error contacting AI service" else e

/-- The reply/usedProvider computation of the chat route (server.js lines
274-320): the if/else chain on the provider id, with the final `else`
falling back to groq and hard-coding `usedProvider = "groq"`. -/
def dispatchResult (u : ChatUpstreams) (p : String) : ChatResult :=
  if p = "gemini" then
    match u.gemini with
    | Except.ok t => ChatResult.ok { reply := t, provider := p }
    | Except.error e => ChatResult.serverError (chatCatchMsg e)
  else if p = "deepseek" then
    match u.deepseek with
    | Except.ok c => ChatResult.ok { reply := jsOr c "No reply", provider := p }
    | Except.error e => ChatResult.serverError (chatCatchMsg e)
  else if p = "huggingface" then
    match u.hf with
    | Except.ok r => ChatResult.ok { reply := jsOr r.1 r.2, provider := p }
    | Except.error e => ChatResult.serverError (chatCatchMsg e)
  else
    match u.groq with
    | Except.ok c => ChatResult.ok { reply := jsOr c "No reply", provider := "groq" }
    | Except.error e => ChatResult.serverError (chatCatchMsg e)

/-- Observable trace of one chat request: the HTTP result, the provider call
made (if any), and the `chatMessages` list handed to the dispatch (if built). -/
structure ChatTrace where
  result : ChatResult
  call : Option ProviderCall
  builtMessages : Option (List ChatMsg)
deriving DecidableEq

/-- The chat route handler body (after the auth middleware).  The provider
id destructures with default `"groq"` when the field is absent. -/
def chatHandler (u : ChatUpstreams) (provider message : Option String)
    (messages : Option (List ChatMsg)) : ChatTrace :=
  if chatBodyInvalid message messages then
    { result := ChatResult.badRequest "Either `message` or `messages` is required",
      call := none, builtMessages := none }
  else
    let chatMessages := buildChatMessages message messages
    let usedProvider := provider.getD "groq"
    { result := dispatchResult u usedProvider,
      call := some (providerCallOf usedProvider chatMessages message),
      builtMessages := some chatMessages }

/-- The full protected chat route: authMiddleware, then the handler. -/
def chatRoute (verify : String → Option JwtUser) (authHeader : Option String)
    (u : ChatUpstreams) (provider message : Option String)
    (messages : Option (List ChatMsg)) : ChatTrace :=
  match authMiddleware verify authHeader with
  | Except.error e =>
      { result := ChatResult.unauthorized e.1 e.2, call := none, builtMessages := none }
  | Except.ok _ => chatHandler u provider message messages

/- ------------------------------------------------------------------
   Client session store: src/unnamed/part_000 (App.jsx)
   ------------------------------------------------------------------ -/

/-- A chat message of the client session store. -/
structure Message where
  sender : String
  text : String
  provider : Option String
  imageUrl : Option String
deriving DecidableEq

/-- The greeting message every fresh chat starts with. -/
def initialGreeting : Message :=
  { sender := "bot", text := "Hi! I\x27m your Falcon AI 🤖. Ask me anything!",
    provider := some "groq", imageUrl := none }

/-- A chat of the client session store. -/
structure Chat where
  id : String
  title : String
  createdAt : Nat
  messages : List Message
deriving DecidableEq

/-- `createNewChat()`: `Date.now()` is passed in as `now`. -/
def createNewChat (now : Nat) : Chat :=
  { id := toString now, title := "New chat", createdAt := now,
    messages := [initialGreeting] }

/-- The pieces of React state that the claims are about. -/
structure AppState where
  chats : List Chat
  activeChatId : Option String
  input : String
  imageFile : Option String
  loading : Bool
  provider : String
deriving DecidableEq

/-- `const activeChat = chats.find(c => c.id === activeChatId) || chats[0]
|| createNewChat()`. -/
def resolveActiveChat (chats : List Chat) (activeChatId : Option String) (now : Nat) : Chat :=
  match chats.find? (fun c => activeChatId == some c.id) with
  | some c => c
  | none =>
      match chats.head? with
      | some c => c
      | none => createNewChat now

/-- The chat reset applied by `clearCurrentChat` to the active chat. -/
def clearUpd (chat : Chat) : Chat :=
  { chat with title := "New chat", messages := [initialGreeting] }

/-- `clearCurrentChat` (part_000 lines 363-385): maps over the collection,
resetting every chat whose id equals the active chat id. -/
def clearCurrentChat (chats : List Chat) (activeChatId : Option String) (now : Nat) :
    List Chat :=
  let activeChat := resolveActiveChat chats activeChatId now
  chats.map (fun chat => if chat.id = activeChat.id then clearUpd chat else chat)

/-- The title derivation inside `sendMessage` (part_000 lines 409-414):
only a chat still titled "New chat" gets a derived title; the user text is
whitespace-collapsed, trimmed, and truncated to 40 characters plus "..."
when longer than 40. -/
def newTitleFor (title : String) (userText : String) : String :=
  if title = "New chat" then
    let trimmed := jsTrim (collapseWs userText)
    if 40 < trimmed.length then String.mk (trimmed.data.take 40) ++ "..." else trimmed
  else title

/-- The update `sendMessage` applies to the active chat when appending the
outgoing user message (first `setChats`, part_000 lines 399-418). -/
def userUpd (userText : String) (chat : Chat) : Chat :=
  { chat with
    messages := chat.messages ++
      [{ sender := "user", text := userText, provider := none, imageUrl := none }],
    title := newTitleFor chat.title userText }

/-- First `setChats` of `sendMessage`: update the chat(s) with the active id. -/
def appendUserMessage (activeId userText : String) (chats : List Chat) : List Chat :=
  chats.map (fun chat => if chat.id = activeId then userUpd userText chat else chat)

/-- The update appending a bot message to the active chat (second `setChats`). -/
def botUpd (m : Message) (chat : Chat) : Chat :=
  { chat with messages := chat.messages ++ [m] }

/-- Second `setChats` of `sendMessage`: append the bot reply or error message. -/
def appendBotMessage (activeId : String) (m : Message) (chats : List Chat) : List Chat :=
  chats.map (fun chat => if chat.id = activeId then botUpd m chat else chat)

/-- The outgoing user text: `input.trim()`, plus the attachment note when an
image file is attached. -/
def sendUserText (input : String) (imageFile : Option String) : String :=
  match imageFile with
  | some name =>
      jsTrim input ++ "\n\n[User has attached an image: \"" ++ name ++
        "\". Backend cannot see the actual pixels.]"
  | none => jsTrim input

/-- Outcome of the `fetch` to `/api/chat` as observed by `sendMessage`:
either a parsed JSON body (its `reply`, `error`, and `provider` fields —
covering ok and non-ok HTTP statuses alike, since the code never checks
`res.ok` on this path) or a thrown network/parse error. -/
inductive FetchOutcome where
  | ok (reply error provider : Option String)
  | fail
deriving DecidableEq

/-- The bot message `sendMessage` appends for an outcome:
`data.reply || data.error || "Hmm, I couldn\x27t reply."` with provider
`data.provider ?? provider` on a parsed body, or the fixed error text
when the fetch threw (catch clause, part_000 lines 549-566). -/
def botMessageFor (uiProvider : String) : FetchOutcome → Message
  | FetchOutcome.ok reply error prov =>
      { sender := "bot", text := jsOr reply (jsOr error "Hmm, I couldn\x27t reply."),
        provider := some (prov.getD uiProvider), imageUrl := none }
  | FetchOutcome.fail =>
      { sender := "bot", text := "⚠️ Error contacting server.", provider := none,
        imageUrl := none }

/-- Result of one `sendMessage` invocation: the final React state and whether
an HTTP request was issued. -/
structure SendResult where
  state : AppState
  requested : Bool
deriving DecidableEq

/-- `sendMessage` (part_000 lines 388-570) on the text-chat path (mode other
than "image"; the image branch shares the same guard and the same two-append
shape).  The guard is `(!input.trim() && !imageFile) || loading || !activeChat`;
its last disjunct is always false because the active-chat resolution falls
back to a fresh chat object. -/
def sendMessage (st : AppState) (now : Nat) (outcome : FetchOutcome) : SendResult :=
  if (jsTrim st.input == "" && st.imageFile == none) || st.loading then
    { state := st, requested := false }
  else
    let activeChat := resolveActiveChat st.chats st.activeChatId now
    let userText := sendUserText st.input st.imageFile
    let chats1 := appendUserMessage activeChat.id userText st.chats
    let chats2 := appendBotMessage activeChat.id (botMessageFor st.provider outcome) chats1
    { state := { st with chats := chats2, input := "", imageFile := none, loading := false },
      requested := true }

/- ------------------------------------------------------------------
   Concrete instances used to instantiate the theorems below.
   ------------------------------------------------------------------ -/

/-- A fully-populated OpenWeatherMap body, as the upstream returns for a
successful lookup. -/
def sampleWeatherData : JVal :=
  JVal.obj
    [ ("name", JVal.str "Colombo"),
      ("sys", JVal.obj [("country", JVal.str "LK")]),
      ("main", JVal.obj
        [("temp", JVal.num 30), ("feels_like", JVal.num 34), ("humidity", JVal.num 70)]),
      ("weather", JVal.arr
        [JVal.obj [("description", JVal.str "light rain"), ("icon", JVal.str "10d")]]),
      ("cod", JVal.num 200) ]

/-- A concrete token verifier accepting exactly the token "tok". -/
def verifyW : String → Option JwtUser :=
  fun t => if t = "tok" then some { id := "u1", email := "a@x.com" } else none

/-- Concrete provider oracles for one chat request. -/
def chatUpstreamsW : ChatUpstreams :=
  { groq := Except.ok (some "Hello!"), gemini := Except.ok "g",
    deepseek := Except.ok none, hf := Except.ok (none, "x") }

/-- A concrete user store holding one registered user. -/
def storeW : List StoredUser :=
  [{ id := "1", name := "Alice", email := "a@x.com", password := "hash" }]

/-- A fresh chat as hydrated on first login. -/
def witnessChat : Chat :=
  { id := "1", title := "New chat", createdAt := 0, messages := [initialGreeting] }

/-- Client state about to send the 55-character recursion question as the
first user message of a fresh chat. -/
def stTitleW : AppState :=
  { chats := [witnessChat], activeChatId := some "1",
    input := "Explain recursion in simple terms for a beginner please",
    imageFile := none, loading := false, provider := "groq" }

/-- Three distinct chats used to exercise frame conditions. -/
def chatA : Chat := { id := "a", title := "Alpha", createdAt := 1, messages := [initialGreeting] }

/-- See `chatA`. -/
def chatB : Chat := { id := "b", title := "Beta", createdAt := 2, messages := [initialGreeting] }

/-- See `chatA`. -/
def chatC : Chat := { id := "c", title := "Gamma", createdAt := 3, messages := [initialGreeting] }

/-- Client state with three chats, the middle one active, about to send. -/
def stFailW : AppState :=
  { chats := [chatA, chatB, chatC], activeChatId := some "b", input := " hello ",
    imageFile := none, loading := false, provider := "groq" }

/-- Client state whose input is whitespace-only with no attachment. -/
def stGuardW : AppState :=
  { chats := [chatA, chatB], activeChatId := some "a", input := "   ",
    imageFile := none, loading := false, provider := "groq" }

/-- A user message used to pad a transcript. -/
def userMsg10 : Message :=
  { sender := "user", text := "m", provider := none, imageUrl := none }

/-- A chat holding 10 messages (greeting plus nine user messages). -/
def tenMsgChat : Chat :=
  { id := "t", title := "Recursion", createdAt := 5,
    messages := initialGreeting :: List.replicate 9 userMsg10 }

/- ------------------------------------------------------------------
   Helper lemmas.
   ------------------------------------------------------------------ -/

/-- Mapping an id-guarded update over chats none of which carry the id is
the identity. -/
theorem map_updateById_frame (g : Chat → Chat) (aid : String) :
    ∀ (l : List Chat), (∀ c' ∈ l, c'.id ≠ aid) →
      (l.map (fun ch => if ch.id = aid then g ch else ch)) = l := by
  intro l h
  induction l with
  | nil => rfl
  | cons a t ih =>
      simp only [List.map_cons]
      rw [if_neg (h a (by simp)), ih (fun c' hc' => h c' (by simp [hc']))]

/-- Mapping an id-guarded update over a collection in which exactly the
middle chat carries the id updates that chat in place. -/
theorem map_updateById_split (g : Chat → Chat) (aid : String) (pre post : List Chat) (c : Chat)
    (hc : c.id = aid) (hpre : ∀ c' ∈ pre, c'.id ≠ aid) (hpost : ∀ c' ∈ post, c'.id ≠ aid) :
    ((pre ++ c :: post).map (fun ch => if ch.id = aid then g ch else ch)) =
      pre ++ g c :: post := by
  rw [List.map_append, List.map_cons, if_pos hc,
      map_updateById_frame g aid pre hpre, map_updateById_frame g aid post hpost]

/-- When the active id matches exactly the middle chat, the active-chat
resolution returns it. -/
theorem resolveActiveChat_eq (pre post : List Chat) (c : Chat) (aid : String) (now : Nat)
    (hc : c.id = aid) (hpre : ∀ c' ∈ pre, c'.id ≠ aid) :
    resolveActiveChat (pre ++ c :: post) (some aid) now = c := by
  have hfind : (pre ++ c :: post).find?
      (fun ch => (some aid : Option String) == some ch.id) = some c := by
    induction pre with
    | nil =>
        have hcb : ((some aid : Option String) == some c.id) = true := by
          rw [beq_iff_eq, hc]
        simp only [List.nil_append, List.find?]
        rw [hcb]
    | cons a t ih =>
        have ha : ((some aid : Option String) == some a.id) = false := by
          rw [beq_eq_false_iff_ne]
          intro hcontra
          exact hpre a (by simp) (by injection hcontra with h; exact h.symm)
        have ht := ih (fun c' hc' => hpre c' (by simp [hc']))
        simp only [List.cons_append, List.find?]
        rw [ha]
        exact ht
  unfold resolveActiveChat
  rw [hfind]

/- ------------------------------------------------------------------
   Claim theorems.
   ------------------------------------------------------------------ -/

/-- C1 (counterexample): a POST /api/image/generate request carrying no
Authorization header at all, with a non-blank prompt and a successful
upstream, is answered 200 and the upstream image call IS made — refuting
the claim that such a request fails with an auth error without an upstream
call. -/
theorem imageGenerate_noAuth_counterexample :
    (imageGenerateRoute none (some "a red falcon")
      { ok := true, base64Body := "QUJD", errText := "" }).1.status = 200 ∧
    (imageGenerateRoute none (some "a red falcon")
      { ok := true, base64Body := "QUJD", errText := "" }).2 = true :=
  ⟨rfl, rfl⟩

/-- C1 (amended): POST /api/image/generate performs no credential check —
the route is registered without the auth middleware, so its response and its
decision to call the upstream image API are independent of the Authorization
header; every request with a non-blank prompt reaches the upstream call and
is never answered 401. -/
theorem imageGenerate_authIndependent (h1 h2 prompt : Option String) (up : ImageUpstream) :
    imageGenerateRoute h1 prompt up = imageGenerateRoute h2 prompt up ∧
    (jsBlank prompt = false →
      (imageGenerateRoute h1 prompt up).2 = true ∧
      (imageGenerateRoute h1 prompt up).1.status ≠ 401) := by
  refine ⟨rfl, fun hb => ?_⟩
  unfold imageGenerateRoute
  rw [hb]
  by_cases hok : up.ok = true
  · simp [hok]
  · simp [hok]

/-- C1 (witness for the amended theorem): concrete instantiation at a
request with an Authorization header, a non-blank prompt, and a failing
upstream. -/
theorem imageGenerate_authIndependent_witness :
    jsBlank (some "a red falcon") = false ∧
    (imageGenerateRoute (some "Bearer xyz") (some "a red falcon")
        { ok := false, base64Body := "", errText := "boom" } =
      imageGenerateRoute none (some "a red falcon")
        { ok := false, base64Body := "", errText := "boom" } ∧
    ((imageGenerateRoute (some "Bearer xyz") (some "a red falcon")
        { ok := false, base64Body := "", errText := "boom" }).2 = true ∧
     (imageGenerateRoute (some "Bearer xyz") (some "a red falcon")
        { ok := false, base64Body := "", errText := "boom" }).1.status ≠ 401)) := by
  have h := imageGenerate_authIndependent (some "Bearer xyz") none (some "a red falcon")
    { ok := false, base64Body := "", errText := "boom" }
  exact ⟨by decide, h.1, h.2 (by decide)⟩

/-- C4 (counterexample): on a fully-populated upstream body the weather
result's keys are not {city, country, temp, feelsLike, humidity,
description, icon}: the field is spelled feels_like and an extra raw field
carries the whole upstream body. -/
theorem weather_fields_counterexample :
    ¬ ((weatherResult sampleWeatherData).map Prod.fst =
        ["city", "country", "temp", "feelsLike", "humidity", "description", "icon"]) ∧
    "feelsLike" ∉ (weatherResult sampleWeatherData).map Prod.fst ∧
    "raw" ∈ (weatherResult sampleWeatherData).map Prod.fst := by
  refine ⟨by decide, by decide, by decide⟩

/-- C4 (amended): every successful weather lookup returns a body whose keys
are exactly city, country, temp, feels_like, humidity, description, icon,
and raw — the raw field holding the full upstream response. -/
theorem weather_result_fields (city apiKey : Option String) (up : UpstreamWeatherResp)
    (s k : String) (hcity : city = some s) (hs : jsTrim s ≠ "")
    (hkey : apiKey = some k) (hk : k ≠ "") (hok : up.ok = true) :
    weatherHandler city apiKey up =
      ({ status := 200, body := weatherResult up.data }, true) ∧
    (weatherResult up.data).map Prod.fst =
      ["city", "country", "temp", "feels_like", "humidity", "description", "icon", "raw"] := by
  subst hcity hkey
  have hs' : s ≠ "" := by
    intro h
    subst h
    exact hs rfl
  have hblank : jsBlank (some s) = false := by
    simp [jsBlank, hs, hs']
  refine ⟨?_, rfl⟩
  simp [weatherHandler, hblank, hk, hok]

/-- C4 (witness for the amended theorem): concrete successful lookup. -/
theorem weather_result_fields_witness :
    jsTrim "Colombo" ≠ "" ∧ ("key" : String) ≠ "" ∧
    (weatherHandler (some "Colombo") (some "key")
        { ok := true, status := 200, data := sampleWeatherData } =
      ({ status := 200, body := weatherResult sampleWeatherData }, true) ∧
    (weatherResult sampleWeatherData).map Prod.fst =
      ["city", "country", "temp", "feels_like", "humidity", "description", "icon", "raw"]) :=
  ⟨by decide, by decide,
   weather_result_fields (some "Colombo") (some "key")
     { ok := true, status := 200, data := sampleWeatherData } "Colombo" "key"
     rfl (by decide) rfl (by decide) rfl⟩

/-- C5: a weather request whose city is missing, empty, or whitespace-only
is rejected with status 400 and the error body "City is required", and the
upstream weather API is not called. -/
theorem weather_blankCity_rejected (city apiKey : Option String) (up : UpstreamWeatherResp)
    (h : city = none ∨ ∃ s, city = some s ∧ jsTrim s = "") :
    weatherHandler city apiKey up =
      ({ status := 400, body := [("error", JVal.str "City is required")] }, false) := by
  have hblank : jsBlank city = true := by
    rcases h with h | ⟨s, rfl, hs⟩
    · subst h; rfl
    · simp [jsBlank, hs]
  simp [weatherHandler, hblank]

/-- C5 (witness): a whitespace-only city is rejected before any upstream call. -/
theorem weather_blankCity_rejected_witness :
    ((some "   " : Option String) = none ∨
      ∃ s, (some "   " : Option String) = some s ∧ jsTrim s = "") ∧
    weatherHandler (some "   ") (some "key")
        { ok := true, status := 200, data := sampleWeatherData } =
      ({ status := 400, body := [("error", JVal.str "City is required")] }, false) :=
  ⟨Or.inr ⟨"   ", rfl, by decide⟩,
   weather_blankCity_rejected (some "   ") (some "key")
     { ok := true, status := 200, data := sampleWeatherData }
     (Or.inr ⟨"   ", rfl, by decide⟩)⟩

/-- C3: a login with an email absent from the user store and a login with a
stored email whose password hash does not match produce the same status 400
and the identical message "Invalid email or password" — the two failure
causes are indistinguishable to the caller. -/
theorem login_indistinguishable (store : List StoredUser) (compare : String → String → Bool)
    (sign : String → String → String) (e1 p1 e2 p2 : String) (u : StoredUser)
    (h1 : findUserByEmail store e1 = none)
    (h2 : findUserByEmail store e2 = some u)
    (h3 : compare p2 u.password = false) :
    loginHandler store compare sign e1 p1 =
      LoginResult.failure 400 "Invalid email or password" ∧
    loginHandler store compare sign e2 p2 =
      LoginResult.failure 400 "Invalid email or password" ∧
    loginHandler store compare sign e1 p1 = loginHandler store compare sign e2 p2 := by
  have a1 : loginHandler store compare sign e1 p1 =
      LoginResult.failure 400 "Invalid email or password" := by
    simp [loginHandler, h1]
  have a2 : loginHandler store compare sign e2 p2 =
      LoginResult.failure 400 "Invalid email or password" := by
    simp [loginHandler, h2, h3]
  exact ⟨a1, a2, a1.trans a2.symm⟩

/-- C3 (witness): concrete store, unknown email vs wrong password. -/
theorem login_indistinguishable_witness :
    findUserByEmail storeW "b@x.com" = none ∧
    findUserByEmail storeW "a@x.com" =
      some { id := "1", name := "Alice", email := "a@x.com", password := "hash" } ∧
    loginHandler storeW (fun _ _ => false) (fun _ _ => "t") "b@x.com" "pw1" =
      LoginResult.failure 400 "Invalid email or password" ∧
    loginHandler storeW (fun _ _ => false) (fun _ _ => "t") "a@x.com" "pw2" =
      LoginResult.failure 400 "Invalid email or password" := by
  have h := login_indistinguishable storeW (fun _ _ => false) (fun _ _ => "t")
    "b@x.com" "pw1" "a@x.com" "pw2"
    { id := "1", name := "Alice", email := "a@x.com", password := "hash" }
    (by decide) (by decide) rfl
  exact ⟨by decide, by decide, h.1, h.2.1⟩

/-- C2: an authenticated, well-formed chat request whose provider id is
omitted or not one of gemini, deepseek, huggingface is dispatched to the
groq adapter, and the success response reports provider "groq". -/
theorem chat_provider_fallback (verify : String → Option JwtUser)
    (authHeader provider message : Option String) (messages : Option (List ChatMsg))
    (u : ChatUpstreams) (usr : JwtUser) (c : Option String)
    (hauth : authMiddleware verify authHeader = Except.ok usr)
    (hbody : chatBodyInvalid message messages = false)
    (hprov : ∀ s, provider = some s →
      s ≠ "gemini" ∧ s ≠ "deepseek" ∧ s ≠ "huggingface")
    (hgroq : u.groq = Except.ok c) :
    chatRoute verify authHeader u provider message messages =
      { result := ChatResult.ok { reply := jsOr c "No reply", provider := "groq" },
        call := some (ProviderCall.groqCall "llama-3.1-8b-instant"
          (buildChatMessages message messages)),
        builtMessages := some (buildChatMessages message messages) } := by
  have hdisp : dispatchResult u (provider.getD "groq") =
      ChatResult.ok { reply := jsOr c "No reply", provider := "groq" } := by
    cases provider with
    | none => simp [dispatchResult, hgroq]
    | some s =>
        obtain ⟨hg, hd, hh⟩ := hprov s rfl
        simp [dispatchResult, hg, hd, hh, hgroq]
  have hcall : providerCallOf (provider.getD "groq") (buildChatMessages message messages)
      message = ProviderCall.groqCall "llama-3.1-8b-instant"
        (buildChatMessages message messages) := by
    cases provider with
    | none => simp [providerCallOf]
    | some s =>
        obtain ⟨hg, hd, hh⟩ := hprov s rfl
        simp [providerCallOf, hg, hd, hh]
  simp [chatRoute, hauth, chatHandler, hbody, hdisp, hcall]

/-- C2 (witness): provider "unknown-provider" with valid token and single
message is served by groq and reported as provider "groq". -/
theorem chat_provider_fallback_witness :
    authMiddleware verifyW (some "Bearer tok") = Except.ok { id := "u1", email := "a@x.com" } ∧
    chatBodyInvalid (some "hi") none = false ∧
    chatRoute verifyW (some "Bearer tok") chatUpstreamsW (some "unknown-provider")
        (some "hi") none =
      { result := ChatResult.ok { reply := jsOr (some "Hello!") "No reply", provider := "groq" },
        call := some (ProviderCall.groqCall "llama-3.1-8b-instant"
          (buildChatMessages (some "hi") none)),
        builtMessages := some (buildChatMessages (some "hi") none) } := by
  refine ⟨by rfl, by decide, ?_⟩
  exact chat_provider_fallback verifyW (some "Bearer tok") (some "unknown-provider")
    (some "hi") none chatUpstreamsW { id := "u1", email := "a@x.com" } (some "Hello!")
    (by rfl) (by decide)
    (fun s hs => by injection hs with h; subst h; exact ⟨by decide, by decide, by decide⟩)
    rfl

/-- C8: an authenticated chat request supplying a single non-empty message
and no non-empty messages array builds the two-element list [system default
prompt, user message] and hands exactly that list to the provider dispatch. -/
theorem chat_singleMessage_synthesis (verify : String → Option JwtUser)
    (authHeader provider : Option String) (m : String) (messages : Option (List ChatMsg))
    (u : ChatUpstreams) (usr : JwtUser)
    (hauth : authMiddleware verify authHeader = Except.ok usr)
    (hm : m ≠ "")
    (hmsgs : messages = none ∨ messages = some []) :
    buildChatMessages (some m) messages =
      [ { role := "system", content := defaultSystemPrompt },
        { role := "user", content := m } ] ∧
    (chatRoute verify authHeader u provider (some m) messages).builtMessages =
      some [ { role := "system", content := defaultSystemPrompt },
             { role := "user", content := m } ] ∧
    (chatRoute verify authHeader u provider (some m) messages).call =
      some (providerCallOf (provider.getD "groq")
        [ { role := "system", content := defaultSystemPrompt },
          { role := "user", content := m } ] (some m)) := by
  have hbuild : buildChatMessages (some m) messages =
      [ { role := "system", content := defaultSystemPrompt },
        { role := "user", content := m } ] := by
    rcases hmsgs with rfl | rfl <;> simp [buildChatMessages, defaultChatMessages]
  have hbody : chatBodyInvalid (some m) messages = false := by
    simp [chatBodyInvalid, jsFalsyStr, hm]
  refine ⟨hbuild, ?_, ?_⟩ <;> simp [chatRoute, hauth, chatHandler, hbody, hbuild]

/-- C8 (witness): concrete single-message request. -/
theorem chat_singleMessage_synthesis_witness :
    authMiddleware verifyW (some "Bearer tok") = Except.ok { id := "u1", email := "a@x.com" } ∧
    ("hi" : String) ≠ "" ∧
    (buildChatMessages (some "hi") none =
      [ { role := "system", content := defaultSystemPrompt },
        { role := "user", content := "hi" } ] ∧
    (chatRoute verifyW (some "Bearer tok") chatUpstreamsW none (some "hi") none).builtMessages =
      some [ { role := "system", content := defaultSystemPrompt },
             { role := "user", content := "hi" } ] ∧
    (chatRoute verifyW (some "Bearer tok") chatUpstreamsW none (some "hi") none).call =
      some (providerCallOf ((none : Option String).getD "groq")
        [ { role := "system", content := defaultSystemPrompt },
          { role := "user", content := "hi" } ] (some "hi"))) :=
  ⟨by rfl, by decide,
   chat_singleMessage_synthesis verifyW (some "Bearer tok") none "hi" none chatUpstreamsW
     { id := "u1", email := "a@x.com" } (by rfl) (by decide) (Or.inl rfl)⟩

/-- C6 (counterexample): the quoted message "Explain recursion in simple
terms for a beginner please" is 55 characters long, not 44, so the claim's
description of its input is false (the derived title is nonetheless its
first 40 characters plus "..."). -/
theorem sendMessage_title_counterexample :
    ¬ (("Explain recursion in simple terms for a beginner please" : String).length = 44 ∧
        newTitleFor "New chat" "Explain recursion in simple terms for a beginner please" =
          String.mk
            (("Explain recursion in simple terms for a beginner please" : String).data.take 40)
            ++ "...") ∧
    ("Explain recursion in simple terms for a beginner please" : String).length = 55 := by
  exact ⟨fun h => absurd h.1 (by decide), by decide⟩

/-- C6 (amended): sending a user message to a chat still titled "New chat"
derives the title from the outgoing text by whitespace-collapsing and
trimming; a result longer than 40 characters becomes its first 40
characters plus "...", and a result of at most 40 characters is used
unmodified — in particular the 55-character message "Explain recursion in
simple terms for a beginner please" yields its first 40 characters plus
ellipsis. -/
theorem sendMessage_derivesTitle (st : AppState) (now : Nat) (outcome : FetchOutcome)
    (pre post : List Chat) (c : Chat) (aid : String)
    (hchats : st.chats = pre ++ c :: post)
    (haid : st.activeChatId = some aid)
    (hc : c.id = aid)
    (hpre : ∀ c' ∈ pre, c'.id ≠ aid)
    (hpost : ∀ c' ∈ post, c'.id ≠ aid)
    (htitle : c.title = "New chat")
    (himg : st.imageFile = none)
    (hinput : jsTrim st.input ≠ "")
    (hload : st.loading = false) :
    (sendMessage st now outcome).state.chats =
      pre ++ { c with
        title :=
          if 40 < (jsTrim (collapseWs (jsTrim st.input))).length then
            String.mk ((jsTrim (collapseWs (jsTrim st.input))).data.take 40) ++ "..."
          else jsTrim (collapseWs (jsTrim st.input)),
        messages := c.messages ++
          [ { sender := "user", text := jsTrim st.input, provider := none, imageUrl := none },
            botMessageFor st.provider outcome ] } :: post := by
  subst hc
  have hguard : ((jsTrim st.input == "" && st.imageFile == none) || st.loading) = false := by
    simp [hload, hinput]
  have hsend : sendMessage st now outcome =
      { state := { st with
          chats := appendBotMessage (resolveActiveChat st.chats st.activeChatId now).id
            (botMessageFor st.provider outcome)
            (appendUserMessage (resolveActiveChat st.chats st.activeChatId now).id
              (sendUserText st.input st.imageFile) st.chats),
          input := "", imageFile := none, loading := false },
        requested := true } := by
    unfold sendMessage
    rw [if_neg (by simp [hguard])]
  rw [hsend]
  simp only [hchats, haid, himg, sendUserText]
  rw [resolveActiveChat_eq pre post c c.id now rfl hpre]
  simp only [appendUserMessage, appendBotMessage]
  rw [map_updateById_split (userUpd (jsTrim st.input)) c.id pre post c rfl hpre hpost]
  rw [map_updateById_split (botUpd (botMessageFor st.provider outcome)) c.id pre post
    (userUpd (jsTrim st.input) c) (by simp [userUpd]) hpre hpost]
  simp [userUpd, botUpd, newTitleFor, htitle]

/-- C6 (witness for the amended theorem): the 55-character recursion
question as the first user message of a fresh chat sets the title to its
first 40 characters plus "...". -/
theorem sendMessage_derivesTitle_witness :
    jsTrim stTitleW.input ≠ "" ∧
    (sendMessage stTitleW 0 FetchOutcome.fail).state.chats =
      [ { id := "1", title := "Explain recursion in simple terms for a ...",
          createdAt := 0,
          messages := [ initialGreeting,
            { sender := "user",
              text := "Explain recursion in simple terms for a beginner please",
              provider := none, imageUrl := none },
            { sender := "bot", text := "⚠️ Error contacting server.",
              provider := none, imageUrl := none } ] } ] := by
  have h := sendMessage_derivesTitle stTitleW 0 FetchOutcome.fail [] [] witnessChat "1"
    rfl rfl rfl (by simp) (by simp) rfl rfl (by decide) rfl
  exact ⟨by decide, h.trans (by decide)⟩

/-- C7: clearCurrentChat resets the active chat in place — afterwards it
holds exactly one message (the initial greeting) and the title "New chat",
it keeps its id, creation time and position in the collection, and every
other chat is unchanged. -/
theorem clearCurrentChat_resets (chats pre post : List Chat) (c : Chat) (aid : String)
    (now : Nat)
    (hchats : chats = pre ++ c :: post)
    (hc : c.id = aid)
    (hpre : ∀ c' ∈ pre, c'.id ≠ aid)
    (hpost : ∀ c' ∈ post, c'.id ≠ aid) :
    clearCurrentChat chats (some aid) now =
      pre ++ { c with title := "New chat", messages := [initialGreeting] } :: post ∧
    ({ c with title := "New chat", messages := [initialGreeting] } : Chat).messages.length
      = 1 := by
  subst hchats
  subst hc
  refine ⟨?_, rfl⟩
  simp only [clearCurrentChat]
  rw [resolveActiveChat_eq pre post c c.id now rfl hpre]
  exact map_updateById_split clearUpd c.id pre post c rfl hpre hpost

/-- C7 (witness): clearing a 10-message active chat flanked by two other
chats resets it to the single greeting and leaves the neighbours intact. -/
theorem clearCurrentChat_resets_witness :
    tenMsgChat.messages.length = 10 ∧
    clearCurrentChat [chatA, tenMsgChat, chatC] (some "t") 0 =
      [chatA] ++ { tenMsgChat with title := "New chat", messages := [initialGreeting] }
        :: [chatC] ∧
    ({ tenMsgChat with title := "New chat", messages := [initialGreeting] } : Chat).messages.length = 1 := by
  have h := clearCurrentChat_resets [chatA, tenMsgChat, chatC] [chatA] [chatC] tenMsgChat
    "t" 0 rfl rfl (by decide) (by decide)
  exact ⟨by decide, h.1, h.2⟩

/-- C9: when the chat fetch fails (thrown network/parse error, or a parsed
body carrying no reply but a non-empty error string — the shape of a non-ok
HTTP response), sendMessage leaves a fully consistent state: the outgoing
user message remains appended to the active chat, exactly one bot message
carrying the visible error text follows it, every other chat is untouched,
and loading is reset. -/
theorem sendMessage_failure_appends (st : AppState) (now : Nat) (outcome : FetchOutcome)
    (pre post : List Chat) (c : Chat) (aid : String)
    (hchats : st.chats = pre ++ c :: post)
    (haid : st.activeChatId = some aid)
    (hc : c.id = aid)
    (hpre : ∀ c' ∈ pre, c'.id ≠ aid)
    (hpost : ∀ c' ∈ post, c'.id ≠ aid)
    (hguard : ¬ ((jsTrim st.input = "" ∧ st.imageFile = none) ∨ st.loading = true))
    (hfail : outcome = FetchOutcome.fail ∨
      ∃ e p, outcome = FetchOutcome.ok none (some e) p ∧ e ≠ "") :
    (sendMessage st now outcome).requested = true ∧
    (sendMessage st now outcome).state.loading = false ∧
    (sendMessage st now outcome).state.chats =
      pre ++ { c with
        title := newTitleFor c.title (sendUserText st.input st.imageFile),
        messages := c.messages ++
          [ { sender := "user", text := sendUserText st.input st.imageFile,
              provider := none, imageUrl := none },
            botMessageFor st.provider outcome ] } :: post ∧
    (outcome = FetchOutcome.fail →
      botMessageFor st.provider outcome =
        { sender := "bot", text := "⚠️ Error contacting server.", provider := none,
          imageUrl := none }) ∧
    (∀ e p, outcome = FetchOutcome.ok none (some e) p → e ≠ "" →
      botMessageFor st.provider outcome =
        { sender := "bot", text := e, provider := some (p.getD st.provider),
          imageUrl := none }) := by
  subst hc
  have hguard' : ((jsTrim st.input == "" && st.imageFile == none) || st.loading) = false := by
    rcases Bool.eq_false_or_eq_true ((jsTrim st.input == "" && st.imageFile == none)
        || st.loading) with hg | hg
    · exfalso
      simp only [Bool.or_eq_true, Bool.and_eq_true, beq_iff_eq] at hg
      exact hguard hg
    · exact hg
  have hsend : sendMessage st now outcome =
      { state := { st with
          chats := appendBotMessage (resolveActiveChat st.chats st.activeChatId now).id
            (botMessageFor st.provider outcome)
            (appendUserMessage (resolveActiveChat st.chats st.activeChatId now).id
              (sendUserText st.input st.imageFile) st.chats),
          input := "", imageFile := none, loading := false },
        requested := true } := by
    unfold sendMessage
    rw [if_neg (by simp [hguard'])]
  refine ⟨?_, ?_, ?_, ?_, ?_⟩
  · rw [hsend]
  · rw [hsend]
  · rw [hsend]
    simp only [hchats, haid]
    rw [resolveActiveChat_eq pre post c c.id now rfl hpre]
    simp only [appendUserMessage, appendBotMessage]
    rw [map_updateById_split (userUpd (sendUserText st.input st.imageFile)) c.id pre post
      c rfl hpre hpost]
    rw [map_updateById_split (botUpd (botMessageFor st.provider outcome)) c.id pre post
      (userUpd (sendUserText st.input st.imageFile) c) (by simp [userUpd]) hpre hpost]
    simp [userUpd, botUpd]
  · intro h
    subst h
    rfl
  · intro e p h he
    subst h
    simp [botMessageFor, jsOr, he]

/-- C9 (witness): a thrown fetch failure on a three-chat collection with the
middle chat active. -/
theorem sendMessage_failure_appends_witness :
    ¬ ((jsTrim stFailW.input = "" ∧ stFailW.imageFile = none) ∨ stFailW.loading = true) ∧
    (sendMessage stFailW 0 FetchOutcome.fail).requested = true ∧
    (sendMessage stFailW 0 FetchOutcome.fail).state.loading = false ∧
    (sendMessage stFailW 0 FetchOutcome.fail).state.chats =
      [chatA] ++ { chatB with
        title := newTitleFor chatB.title (sendUserText stFailW.input stFailW.imageFile),
        messages := chatB.messages ++
          [ { sender := "user", text := sendUserText stFailW.input stFailW.imageFile,
              provider := none, imageUrl := none },
            botMessageFor stFailW.provider FetchOutcome.fail ] } :: [chatC] ∧
    botMessageFor stFailW.provider FetchOutcome.fail =
      { sender := "bot", text := "⚠️ Error contacting server.", provider := none,
        imageUrl := none } := by
  have h := sendMessage_failure_appends stFailW 0 FetchOutcome.fail [chatA] [chatC] chatB
    "b" rfl rfl rfl (by decide) (by decide) (by decide) (Or.inl rfl)
  exact ⟨by decide, h.1, h.2.1, h.2.2.1, h.2.2.2.1 rfl⟩

/-- C10: when the input is empty or whitespace-only with no attached image,
or a previous request is still loading, sendMessage leaves the entire state
(chat collection, active chat id, every message list) unchanged and issues
no HTTP request. -/
theorem sendMessage_guard_noop (st : AppState) (now : Nat) (outcome : FetchOutcome)
    (h : (jsTrim st.input = "" ∧ st.imageFile = none) ∨ st.loading = true) :
    sendMessage st now outcome = { state := st, requested := false } ∧
    (sendMessage st now outcome).state.chats = st.chats ∧
    (sendMessage st now outcome).state.activeChatId = st.activeChatId ∧
    (sendMessage st now outcome).requested = false := by
  have hguard : ((jsTrim st.input == "" && st.imageFile == none) || st.loading) = true := by
    rcases h with ⟨h1, h2⟩ | h1
    · simp [h1, h2]
    · simp [h1]
  have e : sendMessage st now outcome = { state := st, requested := false } := by
    simp [sendMessage, hguard]
  exact ⟨e, by rw [e], by rw [e], by rw [e]⟩

/-- C10 (witness): a whitespace-only input with no attachment is a no-op. -/
theorem sendMessage_guard_noop_witness :
    ((jsTrim stGuardW.input = "" ∧ stGuardW.imageFile = none) ∨ stGuardW.loading = true) ∧
    sendMessage stGuardW 0 FetchOutcome.fail = { state := stGuardW, requested := false } ∧
    (sendMessage stGuardW 0 FetchOutcome.fail).state.chats = stGuardW.chats ∧
    (sendMessage stGuardW 0 FetchOutcome.fail).requested = false := by
  have h := sendMessage_guard_noop stGuardW 0 FetchOutcome.fail
    (Or.inl ⟨by decide, rfl⟩)
  exact ⟨Or.inl ⟨by decide, rfl⟩, h.1, h.2.1, h.2.2.2⟩
